import Mathlib

/-!
Shallow embedding of the fiddler-examples quickstart notebooks
(`Fiddler_Quickstart_NLP_Monitoring.ipynb` and the CIFAR-10 image-monitoring
notebook in the same corpus).  Dataframes are modelled as a column-name list
together with a list of rows; pandas operations used by the notebooks
(`sample`, scalar column assignment, `drop(columns=...)`, `pd.concat(axis=1)`,
`Index.drop`) are translated directly from their documented semantics at the
call sites that appear in the notebooks.  The CIFAR embedding extractor
`generate_embeddings` is translated from the notebook cell that defines it;
`torch` float arithmetic is modelled over `ℚ`, and the floating-point softmax
is abstracted as a parameter (only its length-preservation matters to any
statement below).
-/

set_option autoImplicit false
set_option maxRecDepth 100000

/-- A dataframe cell: the notebooks only store numbers and strings. -/
inductive Value where
  | num (q : ℚ)
  | str (s : String)
deriving DecidableEq, Repr

/-- A pandas dataframe: named columns and a list of rows (row-major). -/
structure DataFrame where
  cols : List String
  rows : List (List Value)
deriving DecidableEq, Repr

namespace DataFrame

/-- Cell lookup: row `i`, column named `c` (default `num 0` out of range). -/
def getCell (df : DataFrame) (i : Nat) (c : String) : Value :=
  (df.rows.getD i []).getD (df.cols.indexOf c) (Value.num 0)

/-- `df.sample(k)` draws `k` distinct row positions (without replacement,
pandas default `replace=False`); the draw itself is nondeterministic, so it
is modelled by the chosen index list `idxs`. Returns a new dataframe (a copy:
the source is untouched). -/
def sample (df : DataFrame) (idxs : List Nat) : DataFrame :=
  ⟨df.cols, idxs.map (fun i => df.rows.getD i [])⟩

/-- `df[c] = v` with a scalar `v`: overwrite column `c` if present, else
append a new column `c` holding `v` in every row. -/
def setCol (df : DataFrame) (c : String) (v : Value) : DataFrame :=
  if c ∈ df.cols then
    ⟨df.cols, df.rows.map (fun r => r.set (df.cols.indexOf c) v)⟩
  else
    ⟨df.cols ++ [c], df.rows.map (fun r => r ++ [v])⟩

/-- `df.drop(columns=cs)`: remove every column whose label is in `cs`. -/
def dropColumns (df : DataFrame) (cs : List String) : DataFrame :=
  ⟨df.cols.filter (fun c => decide (c ∉ cs)),
   df.rows.map (fun r =>
     (((df.cols.zip r).filter (fun p => decide (p.1 ∉ cs))).map Prod.snd))⟩

/-- `pd.concat([df1, df2], axis=1)` on two dataframes with identical
row indices: columns side by side. -/
def concatCols (df1 df2 : DataFrame) : DataFrame :=
  ⟨df1.cols ++ df2.cols, (df1.rows.zip df2.rows).map (fun p => p.1 ++ p.2)⟩

end DataFrame

/-! ### The CIFAR publishing loop's timestamp arithmetic

From the image notebook's event cell:
`week_offset = (2-i)*7*24*60*60*1e3`, `day_offset = 24*60*60*1e3`,
`timestamp = int(now - week_offset - day*day_offset)`.
All quantities involved are integer-valued and far below `2^53`, so the
float arithmetic is exact and is modelled over `ℤ`. -/

/-- `week_offset = (2-i)*7*24*60*60*1e3` for drift phase `i`. -/
def week_offset (i : Nat) : Int := (2 - (i : Int)) * 7 * 24 * 60 * 60 * 1000

/-- `day_offset = 24*60*60*1e3`. -/
def day_offset : Int := 24 * 60 * 60 * 1000

/-- `timestamp = int(now - week_offset - day*day_offset)` with the wall
clock `now = time.time()*1000` held fixed. -/
def batchTimestamp (now : Int) (i day : Nat) : Int :=
  now - week_offset i - (day : Int) * day_offset

/-- One iteration of the publishing loop body:
`events_df = prod_df.sample(1000)`, `events_df['timestamp'] = timestamp`,
then `events_df` is handed to `publish_events_batch`.  Returns the source
dataframe after the iteration (pandas `sample` copies, so it is the same
object) together with the batch handed to the client. -/
def publishLoopBody (now : Int) (i day : Nat) (prod_df : DataFrame)
    (idxs : List Nat) : DataFrame × DataFrame :=
  let timestamp := batchTimestamp now i day
  let events_df := (prod_df.sample idxs).setCol "timestamp"
    (Value.num (timestamp : ℚ))
  (prod_df, events_df)

example : batchTimestamp 1000000 2 0 = 1000000 := by decide
example : (DataFrame.setCol ⟨["a"], [[Value.num 3]]⟩ "t" (Value.num 7)) =
    ⟨["a", "t"], [[Value.num 3, Value.num 7]]⟩ := by decide

/-! ### The CIFAR-10 model and the embedding extractor

From the image notebook: `load_model` builds `resnet18()` with
`model.fc = nn.Sequential(nn.Linear(512, 128), nn.ReLU(), nn.Linear(128, 10))`
and loads pre-trained weights; `generate_embeddings` runs a forward pass per
batch, captures the output of `model.fc[0]` (the FC1 layer) through a forward
hook, and assembles the dataframe. -/

/-- An `nn.Linear` layer: `in_features`, `out_features`, weights and bias. -/
structure Linear where
  in_features : Nat
  out_features : Nat
  weight : Nat → Nat → ℚ
  bias : Nat → ℚ

/-- Applying a linear layer to an input vector: one output per output
feature, each a biased dot product over the input features. -/
def Linear.apply (l : Linear) (x : List ℚ) : List ℚ :=
  (List.range l.out_features).map (fun o =>
    l.bias o + ((List.range l.in_features).map (fun i => l.weight o i * x.getD i 0)).sum)

/-- `nn.ReLU()` applied elementwise. -/
def relu (x : List ℚ) : List ℚ := x.map (fun v => max v 0)

/-- The notebook's model after `load_model`: the resnet18 backbone (everything
before `model.fc`, producing the 512-wide pooled feature vector) followed by
the replaced head `fc = Sequential(Linear(512,128), ReLU, Linear(128,10))`.
The middle `ReLU` has no parameters and is applied in the forward pass. -/
structure CifarModel (I : Type) where
  backbone : I → List ℚ
  fc1 : Linear
  fc3 : Linear

/-- `load_model`: builds the model with `fc = Sequential(Linear(512,128),
ReLU(), Linear(128,10))` and the downloaded weights (the weights themselves
are parameters here, since the `.pth` file is external binary data). -/
def load_model {I : Type} (backbone : I → List ℚ)
    (w1 : Nat → Nat → ℚ) (b1 : Nat → ℚ)
    (w3 : Nat → Nat → ℚ) (b3 : Nat → ℚ) : CifarModel I :=
  ⟨backbone, ⟨512, 128, w1, b1⟩, ⟨128, 10, w3, b3⟩⟩

/-- `CIFAR_CLASSES` from the notebook, in its fixed order. -/
def CIFAR_CLASSES : List String :=
  ["plane", "car", "bird", "cat", "deer", "dog", "frog", "horse", "ship", "truck"]

/-- `idx_to_classes`: map numeric labels to class names. -/
def idx_to_classes (target_arr : List Nat) : List String :=
  target_arr.map (fun i => CIFAR_CLASSES.getD i "")

/-- `embedding_cols = ['emb_'+str(i) for i in range(128)]`. -/
def embedding_cols : List String :=
  (List.range 128).map (fun i => "emb_" ++ toString i)

/-- One forward pass through the model for a single input; the first
component is what the forward hook on `model.fc[0]` captures (the FC1
output), the second is the final logits. -/
def CifarModel.forwardWithHook {I : Type} (m : CifarModel I) (x : I) :
    List ℚ × List ℚ :=
  let fc1_out := m.fc1.apply (m.backbone x)
  (fc1_out, m.fc3.apply (relu fc1_out))

/-- The accumulation loop inside `generate_embeddings`: per batch, record
(FC1 embedding, softmaxed scores, label) for every input, then break when
`images_processed >= n` (checked after accumulating the whole batch).
`smax` is the softmax on logits, abstracted as a function on score vectors
(its floating-point definition is irrelevant to every property below). -/
def genLoop {I : Type} (m : CifarModel I) (smax : List ℚ → List ℚ)
    (batches : List (List (I × Nat))) (n processed : Nat) :
    List (List ℚ × List ℚ × Nat) :=
  match batches with
  | [] => []
  | b :: rest =>
      let recs := b.map (fun p =>
        let fwd := m.forwardWithHook p.1
        (fwd.1, smax fwd.2, p.2))
      if n ≤ processed + b.length then recs
      else recs ++ genLoop m smax rest n (processed + b.length)

/-- `generate_embeddings(model, device, dataloader, n)`.  A dataloader is a
list of batches, each batch a list of (input, label) pairs.  If the
dataloader yields no batches, the local `fc1_embeds` is never assigned and
Python raises `UnboundLocalError` at `embs = deepcopy(fc1_embeds[:n])`;
otherwise the three accumulated arrays are truncated to `n` and concatenated
column-wise into one dataframe with columns
`emb_0..emb_127 ++ CIFAR_CLASSES ++ ['target']`. -/
def generate_embeddings {I : Type} (m : CifarModel I) (smax : List ℚ → List ℚ)
    (dataloader : List (List (I × Nat))) (n : Nat) : Except String DataFrame :=
  if dataloader.isEmpty then
    .error "UnboundLocalError: local variable fc1_embeds referenced before assignment"
  else
    let recs := genLoop m smax dataloader n 0
    let embs := (recs.map (fun r => r.1)).take n
    let scores := (recs.map (fun r => r.2.1)).take n
    let labels := idx_to_classes ((recs.map (fun r => r.2.2)).take n)
    .ok ⟨embedding_cols ++ CIFAR_CLASSES ++ ["target"],
         (embs.zip (scores.zip labels)).map
           (fun p => p.1.map Value.num ++ p.2.1.map Value.num ++ [Value.str p.2.2])⟩

/-- The `try/except` block wrapped around the accumulation loop in
`generate_embeddings`: on an exception `e` raised inside the loop the
handler runs `fc1_hook.remove()` and then bare `raise`, re-raising the very
same exception; on success the hook is left as it was.  `loopFault` models
whether the loop body raised. -/
def generate_embeddings_try_block {I : Type} (m : CifarModel I)
    (smax : List ℚ → List ℚ) (batches : List (List (I × Nat))) (n : Nat)
    (loopFault : Option String) (hookRegistered : Bool) :
    Except String (List (List ℚ × List ℚ × Nat)) × Bool :=
  match loopFault with
  | some e => (.error e, false)
  | none => (.ok (genLoop m smax batches n 0), hookRegistered)

/-! ### NLP notebook: baseline packaging and the features list -/

/-- The NLP baseline-packaging cell:
`baseline_df = baseline_df.drop(columns=['news'])` followed by
`baseline_df = pd.concat([baseline_df, vectorized_df], axis=1)`. -/
def nlp_package_baseline (baseline_df vectorized_df : DataFrame) : DataFrame :=
  (baseline_df.dropColumns ["news"]).concatCols vectorized_df

namespace PandasIndex

/-- `pandas.Index.drop(labels, errors='raise')` on an index of column
labels: raises `KeyError` when some label is missing and `errors` is not
`'ignore'`; otherwise returns the index with all the given labels removed.
The second parameter of the Python signature is `errors`, not a second
label. -/
def drop (idx : List String) (labels : List String) (errors : String) :
    Except String (List String) :=
  if labels.all (fun l => decide (l ∈ idx)) then
    .ok (idx.filter (fun c => decide (c ∉ labels)))
  else if errors = "ignore" then
    .ok (idx.filter (fun c => decide (c ∉ labels)))
  else
    .error "KeyError"

end PandasIndex

/-- The NLP notebook's features cell:
`features = baseline_df.columns.drop('target', 'predicted_score')`.
A Python call with two positional arguments binds `'target'` to `labels`
(coerced to a one-element list) and `'predicted_score'` to `errors`. -/
def nlp_features (columns : List String) : Except String (List String) :=
  PandasIndex.drop columns ["target"] "predicted_score"

/-! ### Guarded client cells (idempotent re-runs)

The remote Fiddler state visible to the notebooks through
`list_projects` / `list_datasets` / `list_models`, and the cells that
create/upload/register guarded by a membership test on the remote IDs.
Each cell returns the new remote state together with the list of mutating
API calls it performed.  (`list_datasets` and `list_models` are per-project
in the client; both notebooks use a single project, so a flat list is an
exact model of what the guards observe.) -/
structure FiddlerState where
  projects : List String
  datasets : List String
  models : List String
deriving DecidableEq, Repr

inductive ApiCall where
  | createProject (pid : String)
  | uploadDataset (pid did : String)
  | addModel (pid did mid : String)
deriving DecidableEq, Repr

/-- NLP and image notebooks' project cell:
`if not PROJECT_ID in client.list_projects(): client.create_project(PROJECT_ID)`. -/
def create_project_cell (st : FiddlerState) (pid : String) :
    FiddlerState × List ApiCall :=
  if pid ∈ st.projects then (st, [])
  else ({ st with projects := st.projects ++ [pid] }, [.createProject pid])

/-- NLP and image notebooks' dataset cell:
`if not DATASET_ID in client.list_datasets(project_id=PROJECT_ID): client.upload_dataset(...)`. -/
def upload_dataset_cell (st : FiddlerState) (pid did : String) :
    FiddlerState × List ApiCall :=
  if did ∈ st.datasets then (st, [])
  else ({ st with datasets := st.datasets ++ [did] }, [.uploadDataset pid did])

/-- NLP notebook's model cell:
`if not MODEL_ID in client.list_models(project_id=PROJECT_ID): client.add_model(...)`. -/
def add_model_cell_nlp (st : FiddlerState) (pid did mid : String) :
    FiddlerState × List ApiCall :=
  if mid ∈ st.models then (st, [])
  else ({ st with models := st.models ++ [mid] }, [.addModel pid did mid])

/-- Image (CIFAR) notebook's model cell: a bare `client.add_model(...)`
with no membership guard. -/
def add_model_cell_image (st : FiddlerState) (pid did mid : String) :
    FiddlerState × List ApiCall :=
  ({ st with models := st.models ++ [mid] }, [.addModel pid did mid])

/-- A concrete instance of the loaded model with all-zero weights and a
backbone ignoring its input, used to evaluate `generate_embeddings` at
concrete inputs. -/
def trivialModel : CifarModel Unit :=
  load_model (fun _ => List.replicate 512 0) (fun _ _ => 0) (fun _ => 0)
    (fun _ _ => 0) (fun _ => 0)

/-! ### Sanity examples -/

example : idx_to_classes [3, 0] = ["cat", "plane"] := by decide
example : embedding_cols.length = 128 := by decide
example : (Linear.apply ⟨2, 3, fun _ _ => 1, fun _ => 0⟩ [1, 2]).length = 3 := by
  simp [Linear.apply]
example : nlp_features ["target", "news", "predicted_score"] =
    .ok ["news", "predicted_score"] := rfl
example : PandasIndex.drop ["a", "b"] ["c"] "raise" = .error "KeyError" := rfl
example : nlp_package_baseline ⟨["news", "target"], [[Value.str "x", Value.num 1]]⟩
      ⟨["f1"], [[Value.num 2]]⟩ =
    ⟨["target", "f1"], [[Value.num 1, Value.num 2]]⟩ := by decide

/-! ### Helper lemmas -/

/-- Reading an appended singleton at the original length. -/
theorem getD_append_singleton {α : Type} (l : List α) (v d : α) :
    (l ++ [v]).getD l.length d = v := by
  rw [List.getD_append_right l [v] d l.length (le_refl _)]
  simp

/-- A linear layer always outputs exactly `out_features` entries. -/
theorem linear_apply_length (l : Linear) (x : List ℚ) :
    (l.apply x).length = l.out_features := by
  simp [Linear.apply]

/-- The break in the accumulation loop fires only once at least `n` inputs
have been processed, so truncating its output at `n - processed` is the same
as truncating the whole input at `n - processed`. -/
theorem genLoop_length_min {I : Type} (m : CifarModel I) (smax : List ℚ → List ℚ) :
    ∀ (batches : List (List (I × Nat))) (n p : Nat),
      min (genLoop m smax batches n p).length (n - p) =
      min ((batches.map List.length).sum) (n - p) := by
  intro batches
  induction batches with
  | nil => intro n p; rfl
  | cons b rest ih =>
    intro n p
    simp only [genLoop, List.map_cons, List.sum_cons]
    by_cases h : n ≤ p + b.length
    · rw [if_pos h]
      simp only [List.length_map]
      omega
    · rw [if_neg h]
      simp only [List.length_append, List.length_map]
      have hih := ih n (p + b.length)
      omega

/-- Every record the accumulation loop emits has an FC1-wide embedding and a
logits-wide score vector, provided the softmax preserves length. -/
theorem genLoop_mem_widths {I : Type} (m : CifarModel I) (smax : List ℚ → List ℚ)
    (hs : ∀ x, (smax x).length = x.length) :
    ∀ (batches : List (List (I × Nat))) (n p : Nat),
      ∀ r ∈ genLoop m smax batches n p,
        r.1.length = m.fc1.out_features ∧ r.2.1.length = m.fc3.out_features := by
  intro batches
  induction batches with
  | nil => intro n p r hr; cases hr
  | cons b rest ih =>
    intro n p r hr
    simp only [genLoop] at hr
    have hrec : ∀ q ∈ b.map (fun p =>
        let fwd := m.forwardWithHook p.1
        (fwd.1, smax fwd.2, p.2)),
        q.1.length = m.fc1.out_features ∧ q.2.1.length = m.fc3.out_features := by
      intro q hq
      rcases List.mem_map.mp hq with ⟨pr, _, rfl⟩
      refine ⟨?_, ?_⟩
      · simp [CifarModel.forwardWithHook, linear_apply_length]
      · simp [CifarModel.forwardWithHook, hs, linear_apply_length]
    by_cases h : n ≤ p + b.length
    · rw [if_pos h] at hr
      exact hrec r hr
    · rw [if_neg h] at hr
      rcases List.mem_append.mp hr with hmem | hmem
      · exact hrec r hmem
      · exact ih n (p + b.length) r hmem

/-! ### Claim theorems -/

/-- C4: if the dataloader yields no batches, `generate_embeddings` raises
(`UnboundLocalError` on `fc1_embeds`) instead of returning a dataframe, so
the run aborts; it never returns an empty result for an empty input batch. -/
theorem C4_empty_dataloader_raises {I : Type} (m : CifarModel I)
    (smax : List ℚ → List ℚ) (n : Nat) :
    generate_embeddings m smax ([] : List (List (I × Nat))) n =
        .error "UnboundLocalError: local variable fc1_embeds referenced before assignment" ∧
    ∀ df : DataFrame,
      generate_embeddings m smax ([] : List (List (I × Nat))) n ≠ .ok df := by
  refine ⟨rfl, ?_⟩
  intro df h
  simp [generate_embeddings] at h

/-- C5: the only `except` clause in the corpus (the one wrapped around the
accumulation loop of `generate_embeddings`) removes the forward hook and
re-raises the same exception unchanged; no exception is caught and
suppressed, so every failure propagates and halts the run. -/
theorem C5_exceptions_propagate {I : Type} (m : CifarModel I)
    (smax : List ℚ → List ℚ) (batches : List (List (I × Nat))) (n : Nat)
    (e : String) (hook : Bool) :
    (generate_embeddings_try_block m smax batches n (some e) hook).1 = .error e ∧
    (generate_embeddings_try_block m smax batches n (some e) hook).2 = false ∧
    (generate_embeddings_try_block m smax batches n none hook).1 =
      .ok (genLoop m smax batches n 0) := by
  exact ⟨rfl, rfl, rfl⟩

/-- C6: with the wall clock fixed at `now`, the batch timestamp equals
`now - (2-i)*7*24*60*60*1000 - day*24*60*60*1000`; it is strictly
increasing in the drift phase `i` for a fixed day, strictly decreasing in
`day` within a fixed phase, and never exceeds `now`. -/
theorem C6_timestamp_offsets (now : Int) (i i' day day' : Nat)
    (hi : i ≤ 2) (hi' : i' ≤ 2) (hday : day ≤ 5) (hday' : day' ≤ 5) :
    batchTimestamp now i day =
        now - (2 - (i : Int)) * (7 * 24 * 60 * 60 * 1000)
            - (day : Int) * (24 * 60 * 60 * 1000) ∧
    (i < i' → batchTimestamp now i day < batchTimestamp now i' day) ∧
    (day < day' → batchTimestamp now i day' < batchTimestamp now i day) ∧
    batchTimestamp now i day ≤ now := by
  refine ⟨?_, ?_, ?_, ?_⟩ <;>
    simp only [batchTimestamp, week_offset, day_offset] <;>
    try intro hlt
  · ring
  · have hc : ((i : Int)) < (i' : Int) := by exact_mod_cast hlt
    nlinarith [hc]
  · have hc : ((day : Int)) < (day' : Int) := by exact_mod_cast hlt
    nlinarith [hc]
  · have hc : ((i : Int)) ≤ 2 := by exact_mod_cast hi
    have hd : (0 : Int) ≤ (day : Int) := Int.ofNat_nonneg day
    nlinarith [hc, hd]

/-- C6 witness at concrete inputs. -/
theorem C6_timestamp_offsets_witness :
    (0 : Nat) ≤ 2 ∧ (1 : Nat) ≤ 2 ∧ (0 : Nat) ≤ 5 ∧ (1 : Nat) ≤ 5 ∧
    (batchTimestamp 1760140800000 0 0 =
        1760140800000 - (2 - (0 : Int)) * (7 * 24 * 60 * 60 * 1000)
            - (0 : Int) * (24 * 60 * 60 * 1000) ∧
      ((0 : Nat) < 1 → batchTimestamp 1760140800000 0 0 < batchTimestamp 1760140800000 1 0) ∧
      ((0 : Nat) < 1 → batchTimestamp 1760140800000 0 1 < batchTimestamp 1760140800000 0 0) ∧
      batchTimestamp 1760140800000 0 0 ≤ 1760140800000) :=
  ⟨by decide, by decide, by decide, by decide,
   C6_timestamp_offsets 1760140800000 0 1 0 1 (by decide) (by decide) (by decide) (by decide)⟩

/-- C9: `baseline_df.columns.drop('target', 'predicted_score')` binds the
second positional argument to `errors`, so only `'target'` is removed and
the feature list still contains the model output column
`'predicted_score'`. -/
theorem C9_features_keep_predicted_score (columns : List String)
    (htarget : "target" ∈ columns) (hscore : "predicted_score" ∈ columns) :
    nlp_features columns =
        .ok (columns.filter (fun c => decide (c ∉ ["target"]))) ∧
    "predicted_score" ∈ columns.filter (fun c => decide (c ∉ ["target"])) := by
  constructor
  · simp [nlp_features, PandasIndex.drop, htarget]
  · simp [List.mem_filter, hscore]

/-- C9 witness at a concrete column list. -/
theorem C9_features_keep_predicted_score_witness :
    "target" ∈ ["target", "predicted_score", "f1"] ∧
    "predicted_score" ∈ ["target", "predicted_score", "f1"] ∧
    (nlp_features ["target", "predicted_score", "f1"] =
        .ok ((["target", "predicted_score", "f1"]).filter
          (fun c => decide (c ∉ ["target"]))) ∧
      "predicted_score" ∈ (["target", "predicted_score", "f1"]).filter
        (fun c => decide (c ∉ ["target"]))) :=
  ⟨by decide, by decide,
   C9_features_keep_predicted_score ["target", "predicted_score", "f1"]
     (by decide) (by decide)⟩

/-- C10 counterexample: in the image notebook the model-registration cell is
a bare `client.add_model(...)` with no membership guard, so running it a
second time from the state its first run produced performs another
`add_model` call and changes the remote state; executing the cell twice is
not equivalent to executing it once. -/
theorem C10_counterexample :
    add_model_cell_image
        (add_model_cell_image ⟨["computer_vision"], ["cifar10_baseline"], []⟩
          "computer_vision" "cifar10_baseline" "resnet18").1
        "computer_vision" "cifar10_baseline" "resnet18" ≠
      ((add_model_cell_image ⟨["computer_vision"], ["cifar10_baseline"], []⟩
          "computer_vision" "cifar10_baseline" "resnet18").1, []) := by
  decide

/-- C10 (amended): the guarded cells — project creation and dataset upload
in both notebooks, and model registration in the NLP notebook — are
idempotent: re-running such a cell after it has run once performs no
create/upload/add call and leaves local and remote state unchanged.  The
image notebook's model-registration cell is unguarded and is excluded. -/
theorem C10_guarded_cells_idempotent (st : FiddlerState) (pid did mid : String) :
    create_project_cell (create_project_cell st pid).1 pid =
        ((create_project_cell st pid).1, []) ∧
    upload_dataset_cell (upload_dataset_cell st pid did).1 pid did =
        ((upload_dataset_cell st pid did).1, []) ∧
    add_model_cell_nlp (add_model_cell_nlp st pid did mid).1 pid did mid =
        ((add_model_cell_nlp st pid did mid).1, []) := by
  refine ⟨?_, ?_, ?_⟩
  · by_cases h : pid ∈ st.projects
    · simp [create_project_cell, h]
    · simp [create_project_cell, h]
  · by_cases h : did ∈ st.datasets
    · simp [upload_dataset_cell, h]
    · simp [upload_dataset_cell, h]
  · by_cases h : mid ∈ st.models
    · simp [add_model_cell_nlp, h]
    · simp [add_model_cell_nlp, h]

/-- C8: the baseline packager concatenates the original metadata columns
(with the raw text column `news` dropped) with the embedding block, in that
order, and — provided the metadata column names are themselves distinct and
disjoint from the embedding names, as they are for the shipped datasets —
the resulting column names are pairwise distinct.  The CIFAR packager's
column list `emb_0..emb_127 ++ CIFAR_CLASSES ++ ['target']` is likewise
collision-free. -/
theorem C8_baseline_packager_no_collisions (baseline_df vectorized_df : DataFrame)
    (hnodup : baseline_df.cols.Nodup) (hvnodup : vectorized_df.cols.Nodup)
    (hdisj : ∀ c ∈ vectorized_df.cols, c ∉ baseline_df.cols) :
    (nlp_package_baseline baseline_df vectorized_df).cols =
        baseline_df.cols.filter (fun c => decide (c ∉ ["news"])) ++
          vectorized_df.cols ∧
    (nlp_package_baseline baseline_df vectorized_df).cols.Nodup ∧
    (embedding_cols ++ CIFAR_CLASSES ++ ["target"]).Nodup := by
  refine ⟨rfl, ?_, by decide⟩
  simp only [nlp_package_baseline, DataFrame.concatCols, DataFrame.dropColumns]
  refine List.Nodup.append (hnodup.filter _) hvnodup ?_
  intro a ha hav
  exact hdisj a hav (List.mem_of_mem_filter ha)

/-- C8 witness at a concrete baseline and embedding block. -/
theorem C8_baseline_packager_no_collisions_witness :
    (["news", "target", "predicted_score"] : List String).Nodup ∧
    (["f1", "f2"] : List String).Nodup ∧
    (∀ c ∈ (["f1", "f2"] : List String), c ∉ ["news", "target", "predicted_score"]) ∧
    ((nlp_package_baseline ⟨["news", "target", "predicted_score"], []⟩
          ⟨["f1", "f2"], []⟩).cols =
        (["news", "target", "predicted_score"] : List String).filter
            (fun c => decide (c ∉ ["news"])) ++ ["f1", "f2"] ∧
      (nlp_package_baseline ⟨["news", "target", "predicted_score"], []⟩
          ⟨["f1", "f2"], []⟩).cols.Nodup ∧
      (embedding_cols ++ CIFAR_CLASSES ++ ["target"]).Nodup) :=
  ⟨by decide, by decide, by decide,
   C8_baseline_packager_no_collisions ⟨["news", "target", "predicted_score"], []⟩
     ⟨["f1", "f2"], []⟩ (by decide) (by decide) (by decide)⟩

/-- On a nonempty dataloader, `generate_embeddings` returns the explicitly
assembled dataframe. -/
theorem generate_embeddings_ok {I : Type} (m : CifarModel I)
    (smax : List ℚ → List ℚ) (dataloader : List (List (I × Nat))) (n : Nat)
    (hne : dataloader ≠ []) :
    generate_embeddings m smax dataloader n =
      .ok ⟨embedding_cols ++ CIFAR_CLASSES ++ ["target"],
           ((((genLoop m smax dataloader n 0).map (fun r => r.1)).take n).zip
             ((((genLoop m smax dataloader n 0).map (fun r => r.2.1)).take n).zip
               (idx_to_classes
                 (((genLoop m smax dataloader n 0).map (fun r => r.2.2)).take n)))).map
             (fun p => p.1.map Value.num ++ p.2.1.map Value.num ++
               [Value.str p.2.2])⟩ := by
  have h : dataloader.isEmpty = false := by
    cases dataloader with
    | nil => cases hne rfl
    | cons a l => rfl
  simp [generate_embeddings, h]

/-- C3 counterexample: at the concrete empty dataloader (`k = 0` inputs) and
cap `n = 5`, `generate_embeddings` does not return a dataframe at all (it
raises), so it does not return one with `min(k, n) = 0` rows. -/
theorem C3_counterexample :
    (generate_embeddings trivialModel (fun x => x)
      ([] : List (List (Unit × Nat))) 5).isOk = false := rfl

/-- C3 (amended): for every dataloader that yields at least one batch, over
`k` raw inputs in total, and every cap `n`, `generate_embeddings` returns a
dataframe with exactly `min(k, n)` rows, and its column sequence is the same
on every call: `emb_0 .. emb_127`, then the ten CIFAR class-score columns in
`CIFAR_CLASSES` order, then `target`. -/
theorem C3_rowcount_and_column_order {I : Type} (m : CifarModel I)
    (smax : List ℚ → List ℚ) (dataloader : List (List (I × Nat))) (n : Nat)
    (hne : dataloader ≠ []) :
    ∃ df : DataFrame, generate_embeddings m smax dataloader n = .ok df ∧
      df.rows.length = min ((dataloader.map List.length).sum) n ∧
      df.cols = embedding_cols ++ CIFAR_CLASSES ++ ["target"] := by
  refine ⟨_, generate_embeddings_ok m smax dataloader n hne, ?_, rfl⟩
  have hmin := genLoop_length_min m smax dataloader n 0
  simp only [Nat.sub_zero] at hmin
  simp only [List.length_map, List.length_zip, List.length_take,
    idx_to_classes]
  omega

/-- C3 witness at a concrete nonempty dataloader. -/
theorem C3_rowcount_and_column_order_witness :
    ([[]] : List (List (Unit × Nat))) ≠ [] ∧
    (∃ df : DataFrame,
      generate_embeddings trivialModel (fun x => x)
          ([[]] : List (List (Unit × Nat))) 0 = .ok df ∧
      df.rows.length =
        min ((([[]] : List (List (Unit × Nat))).map List.length).sum) 0 ∧
      df.cols = embedding_cols ++ CIFAR_CLASSES ++ ["target"]) :=
  ⟨by simp,
   C3_rowcount_and_column_order trivialModel (fun x => x) [[]] 0 (by simp)⟩

/-- C2: every dataframe produced by `generate_embeddings` on the loaded
model — the baseline and each production batch alike — carries exactly
128 embedding columns named `emb_0` through `emb_127`, a count equal to the
output width of the model's FC1 layer `Linear(512,128)`; and every row has
the full fixed width (the dataframe is rectangular, embedding block
included). -/
theorem C2_embedding_block_width {I : Type} (backbone : I → List ℚ)
    (w1 : Nat → Nat → ℚ) (b1 : Nat → ℚ) (w3 : Nat → Nat → ℚ) (b3 : Nat → ℚ)
    (smax : List ℚ → List ℚ) (hs : ∀ x, (smax x).length = x.length)
    (dataloader : List (List (I × Nat))) (n : Nat) (df : DataFrame)
    (hok : generate_embeddings (load_model backbone w1 b1 w3 b3) smax
      dataloader n = .ok df) :
    df.cols.countP (fun c => decide (c ∈ embedding_cols)) = 128 ∧
    df.cols.take 128 = embedding_cols ∧
    embedding_cols.length = (load_model backbone w1 b1 w3 b3).fc1.out_features ∧
    (∀ k, k < 128 → embedding_cols.getD k "" = "emb_" ++ toString k) ∧
    (∀ r ∈ df.rows, r.length = df.cols.length) := by
  have hne : dataloader ≠ [] := by
    intro h
    subst h
    simp [generate_embeddings] at hok
  rw [generate_embeddings_ok _ smax dataloader n hne] at hok
  injection hok with hdf
  subst hdf
  refine ⟨?_, ?_, by simp [embedding_cols, load_model], ?_, ?_⟩
  · show (embedding_cols ++ CIFAR_CLASSES ++ ["target"]).countP
        (fun c => decide (c ∈ embedding_cols)) = 128
    decide
  · have hl : embedding_cols.length = 128 := by simp [embedding_cols]
    show (embedding_cols ++ (CIFAR_CLASSES ++ ["target"])).take 128 = embedding_cols
    rw [← hl, List.take_left]
  · intro k hk
    rw [List.getD_eq_getElem _ _ (by simpa [embedding_cols] using hk)]
    simp [embedding_cols]
  · intro r hr
    rcases List.mem_map.mp hr with ⟨p, hp, rfl⟩
    have h1 := (List.of_mem_zip hp).1
    have h2 := (List.of_mem_zip (List.of_mem_zip hp).2).1
    rcases List.mem_map.mp (List.mem_of_mem_take h1) with ⟨rec1, hrec1, he⟩
    rcases List.mem_map.mp (List.mem_of_mem_take h2) with ⟨rec2, hrec2, hsc⟩
    have hw1 := genLoop_mem_widths _ smax hs dataloader n 0 rec1 hrec1
    have hw2 := genLoop_mem_widths _ smax hs dataloader n 0 rec2 hrec2
    have hlen1 : p.1.length = 128 := by
      rw [← he]
      simpa [load_model] using hw1.1
    have hlen2 : p.2.1.length = 10 := by
      rw [← hsc]
      simpa [load_model] using hw2.2
    simp [hlen1, hlen2, embedding_cols, CIFAR_CLASSES]

/-- C2 witness at a concrete model and dataloader. -/
theorem C2_embedding_block_width_witness :
    (∀ x : List ℚ, ((fun y : List ℚ => y) x).length = x.length) ∧
    generate_embeddings
        (load_model (fun _ : Unit => List.replicate 512 0) (fun _ _ => 0)
          (fun _ => 0) (fun _ _ => 0) (fun _ => 0)) (fun y => y)
        ([[]] : List (List (Unit × Nat))) 0 =
      .ok ⟨embedding_cols ++ CIFAR_CLASSES ++ ["target"], []⟩ ∧
    ((⟨embedding_cols ++ CIFAR_CLASSES ++ ["target"], []⟩ : DataFrame).cols.countP
        (fun c => decide (c ∈ embedding_cols)) = 128 ∧
      (⟨embedding_cols ++ CIFAR_CLASSES ++ ["target"], []⟩ : DataFrame).cols.take 128 =
        embedding_cols ∧
      embedding_cols.length =
        (load_model (fun _ : Unit => List.replicate 512 0) (fun _ _ => 0)
          (fun _ => 0) (fun _ _ => 0) (fun _ => 0)).fc1.out_features ∧
      (∀ k, k < 128 → embedding_cols.getD k "" = "emb_" ++ toString k) ∧
      (∀ r ∈ (⟨embedding_cols ++ CIFAR_CLASSES ++ ["target"], []⟩ : DataFrame).rows,
        r.length =
          (⟨embedding_cols ++ CIFAR_CLASSES ++ ["target"], []⟩ : DataFrame).cols.length)) :=
  ⟨fun _ => rfl, rfl,
   C2_embedding_block_width _ _ _ _ _ _ (fun _ => rfl) [[]] 0 _ rfl⟩

/-- Reading a mapped list through `getD` below the length. -/
theorem map_getD_of_lt {α β : Type} (f : α → β) (l : List α) (j : Nat)
    (d : β) (d' : α) (h : j < l.length) :
    (l.map f).getD j d = f (l.getD j d') := by
  rw [List.getD_eq_getElem _ _ (by simpa using h), List.getD_eq_getElem _ _ h,
    List.getElem_map]

/-- An in-range `getD` read is a member of the list. -/
theorem getD_mem_of_lt {α : Type} (l : List α) (j : Nat) (d : α)
    (h : j < l.length) : l.getD j d ∈ l := by
  rw [List.getD_eq_getElem _ _ h]
  exact List.getElem_mem _

/-- C1: one iteration of the event-publishing loop over a source dataframe
with at least 1000 rows samples exactly 1000 of its rows without replacement
(every batch row is a row of the source), stamps every sampled row with the
same timestamp, and the batch handed to `publish_events_batch` has exactly
the requested 1000 rows. -/
theorem C1_publish_batch_of_1000 (df : DataFrame) (idxs : List Nat)
    (now : Int) (i day : Nat)
    (hlen : 1000 ≤ df.rows.length)
    (hcount : idxs.length = 1000) (hnodup : idxs.Nodup)
    (hvalid : ∀ j ∈ idxs, j < df.rows.length)
    (hts : "timestamp" ∉ df.cols)
    (hrect : ∀ r ∈ df.rows, r.length = df.cols.length) :
    (publishLoopBody now i day df idxs).2.rows.length = 1000 ∧
    (∀ r ∈ (df.sample idxs).rows, r ∈ df.rows) ∧
    (∀ j, j < 1000 →
      (publishLoopBody now i day df idxs).2.getCell j "timestamp" =
        Value.num ((batchTimestamp now i day : Int) : ℚ)) := by
  refine ⟨?_, ?_, ?_⟩
  · simp [publishLoopBody, DataFrame.setCol, DataFrame.sample, hts, hcount]
  · intro r hr
    rcases List.mem_map.mp hr with ⟨jdx, hj, rfl⟩
    exact getD_mem_of_lt _ _ _ (hvalid jdx hj)
  · intro j hj
    have hjl : j < idxs.length := by omega
    simp only [publishLoopBody, DataFrame.setCol, DataFrame.sample, hts,
      if_false, DataFrame.getCell, List.map_map]
    rw [List.indexOf_append_of_not_mem hts]
    rw [map_getD_of_lt _ idxs j [] 0 hjl]
    have hmem : idxs.getD j 0 ∈ idxs := getD_mem_of_lt _ _ _ hjl
    have hsr : (df.rows.getD (idxs.getD j 0) []).length = df.cols.length := by
      rw [List.getD_eq_getElem _ _ (hvalid _ hmem)]
      exact hrect _ (List.getElem_mem _)
    simp only [Function.comp]
    rw [show List.indexOf "timestamp" ["timestamp"] = 0 from rfl, Nat.add_zero,
      ← hsr, getD_append_singleton]

/-- C1 witness at a concrete 1000-row dataframe and index choice. -/
theorem C1_publish_batch_of_1000_witness :
    1000 ≤ (⟨["c"], List.replicate 1000 [Value.num 0]⟩ : DataFrame).rows.length ∧
    (List.range 1000).length = 1000 ∧
    (List.range 1000).Nodup ∧
    (∀ j ∈ List.range 1000,
      j < (⟨["c"], List.replicate 1000 [Value.num 0]⟩ : DataFrame).rows.length) ∧
    "timestamp" ∉ (⟨["c"], List.replicate 1000 [Value.num 0]⟩ : DataFrame).cols ∧
    (∀ r ∈ (⟨["c"], List.replicate 1000 [Value.num 0]⟩ : DataFrame).rows,
      r.length = (⟨["c"], List.replicate 1000 [Value.num 0]⟩ : DataFrame).cols.length) ∧
    ((publishLoopBody 1760140800000 0 0
        ⟨["c"], List.replicate 1000 [Value.num 0]⟩ (List.range 1000)).2.rows.length = 1000 ∧
      (∀ r ∈ ((⟨["c"], List.replicate 1000 [Value.num 0]⟩ : DataFrame).sample
          (List.range 1000)).rows,
        r ∈ (⟨["c"], List.replicate 1000 [Value.num 0]⟩ : DataFrame).rows) ∧
      (∀ j, j < 1000 →
        (publishLoopBody 1760140800000 0 0
            ⟨["c"], List.replicate 1000 [Value.num 0]⟩ (List.range 1000)).2.getCell j
            "timestamp" =
          Value.num ((batchTimestamp 1760140800000 0 0 : Int) : ℚ))) :=
  ⟨by simp, by simp, (List.nodup_range 1000),
   by intro j hj; simpa using List.mem_range.mp hj,
   by decide,
   by intro r hr; rw [List.eq_of_mem_replicate hr]; rfl,
   C1_publish_batch_of_1000 ⟨["c"], List.replicate 1000 [Value.num 0]⟩
     (List.range 1000) 1760140800000 0 0 (by simp) (by simp) (List.nodup_range 1000)
     (by intro j hj; simpa using List.mem_range.mp hj) (by decide)
     (by intro r hr; rw [List.eq_of_mem_replicate hr]; rfl)⟩

/-- C7: stamping the timestamp is the only mutation an event batch
undergoes: the batch's columns are the source columns plus the added
`timestamp` column, every cell of a sampled row under a source column equals
the corresponding cell of the source row, and the source dataframe is left
unchanged by sampling, stamping and publishing. -/
theorem C7_stamp_is_only_mutation (df : DataFrame) (idxs : List Nat)
    (now : Int) (i day : Nat)
    (hvalid : ∀ j ∈ idxs, j < df.rows.length)
    (hts : "timestamp" ∉ df.cols)
    (hrect : ∀ r ∈ df.rows, r.length = df.cols.length) :
    (publishLoopBody now i day df idxs).1 = df ∧
    (publishLoopBody now i day df idxs).2.cols = df.cols ++ ["timestamp"] ∧
    (∀ j, j < idxs.length → ∀ c ∈ df.cols,
      (publishLoopBody now i day df idxs).2.getCell j c =
        df.getCell (idxs.getD j 0) c) := by
  refine ⟨rfl, ?_, ?_⟩
  · simp [publishLoopBody, DataFrame.setCol, DataFrame.sample, hts]
  · intro j hj c hc
    simp only [publishLoopBody, DataFrame.setCol, DataFrame.sample, hts,
      if_false, DataFrame.getCell, List.map_map]
    rw [List.indexOf_append_of_mem hc]
    rw [map_getD_of_lt _ idxs j [] 0 hj]
    have hmem : idxs.getD j 0 ∈ idxs := getD_mem_of_lt _ _ _ hj
    have hsr : (df.rows.getD (idxs.getD j 0) []).length = df.cols.length := by
      rw [List.getD_eq_getElem _ _ (hvalid _ hmem)]
      exact hrect _ (List.getElem_mem _)
    simp only [Function.comp]
    rw [List.getD_append _ _ _ _ (by
      rw [hsr]
      exact List.indexOf_lt_length.mpr hc)]

/-- C7 witness at a concrete dataframe and index choice. -/
theorem C7_stamp_is_only_mutation_witness :
    (∀ j ∈ [1, 0], j < (⟨["c"], [[Value.num 5], [Value.num 6]]⟩ : DataFrame).rows.length) ∧
    "timestamp" ∉ (⟨["c"], [[Value.num 5], [Value.num 6]]⟩ : DataFrame).cols ∧
    (∀ r ∈ (⟨["c"], [[Value.num 5], [Value.num 6]]⟩ : DataFrame).rows,
      r.length = (⟨["c"], [[Value.num 5], [Value.num 6]]⟩ : DataFrame).cols.length) ∧
    ((publishLoopBody 1760140800000 1 2 ⟨["c"], [[Value.num 5], [Value.num 6]]⟩
        [1, 0]).1 = ⟨["c"], [[Value.num 5], [Value.num 6]]⟩ ∧
      (publishLoopBody 1760140800000 1 2 ⟨["c"], [[Value.num 5], [Value.num 6]]⟩
          [1, 0]).2.cols =
        (⟨["c"], [[Value.num 5], [Value.num 6]]⟩ : DataFrame).cols ++ ["timestamp"] ∧
      (∀ j, j < ([1, 0] : List Nat).length →
        ∀ c ∈ (⟨["c"], [[Value.num 5], [Value.num 6]]⟩ : DataFrame).cols,
          (publishLoopBody 1760140800000 1 2 ⟨["c"], [[Value.num 5], [Value.num 6]]⟩
              [1, 0]).2.getCell j c =
            (⟨["c"], [[Value.num 5], [Value.num 6]]⟩ : DataFrame).getCell
              (([1, 0] : List Nat).getD j 0) c)) :=
  ⟨by decide, by decide, by decide,
   C7_stamp_is_only_mutation ⟨["c"], [[Value.num 5], [Value.num 6]]⟩ [1, 0]
     1760140800000 1 2 (by decide) (by decide) (by decide)⟩
